import Mathlib

/-!
Verification of the campaign-eligibility matcher in `src/main.py` of the
`gameloft_technical_project` repository.

The Python functions are shallowly embedded as executable Lean definitions:

* `parseDate`           — `datetime.strptime(s, "%Y-%m-%d %H:%M:%SZ")`, returning
                          `none` where Python raises `ValueError`;
* `get_item_quantity`   — the inner helper of `profile_matches_campaign`
                          (src/main.py lines 133–137);
* `profile_matches_campaign` — src/main.py lines 120–162; the `Option Bool`
                          result is `none` exactly when the (uncaught)
                          `strptime` `ValueError` is raised;
* `get_active_campaigns` — the loop of `get_client_config`
                          (src/main.py lines 171–174), each campaign paired
                          with the instant `datetime.now(timezone.utc)` read
                          during its own evaluation;
* `get_player_profile` / `get_client_config` — src/main.py lines 39–77 and
                          165–179.

Modelling conventions: Python ints are `Int`; an absent dictionary key read
with `.get` is an `Option` that is `none`; instants are compared through the
order-preserving linearisation `DateTime.toSec` (the model's clock has
one-second granularity, which is the granularity of the wire format); a raised
exception that no caller catches is `none` (for the matcher) or
`ConfigResult.parseError` (for the endpoint).
-/

/-- Calendar timestamp as produced by `datetime.strptime` with format
`%Y-%m-%d %H:%M:%SZ` followed by `.replace(tzinfo=timezone.utc)`. -/
structure DateTime where
  year : Nat
  month : Nat
  day : Nat
  hour : Nat
  minute : Nat
  second : Nat
deriving DecidableEq

/-- Leap-year rule used by `datetime` for day-of-month validation. -/
def isLeap (y : Nat) : Bool :=
  (y % 4 == 0 && y % 100 != 0) || y % 400 == 0

/-- Number of days in a month, as enforced by the `datetime` constructor. -/
def daysInMonth (y m : Nat) : Nat :=
  if m = 2 then (if isLeap y then 29 else 28)
  else if m = 4 ∨ m = 6 ∨ m = 9 ∨ m = 11 then 30
  else 31

/-- Numeric value of a digit run, the way `strptime` reads a matched field. -/
def digitsVal (ds : List Char) : Nat :=
  ds.foldl (fun a c => a * 10 + (c.toNat - 48)) 0

/-- Read the leading digit run as a `%Y` field: exactly four digits
(`strptime` compiles `%Y` to a four-digit pattern), value at least 1
(`datetime` rejects year 0). -/
def parseYear4 (cs : List Char) : Option (Nat × List Char) :=
  let run := cs.takeWhile Char.isDigit
  if run.length = 4 ∧ 1 ≤ digitsVal run then
    some (digitsVal run, cs.dropWhile Char.isDigit)
  else none

/-- Read the leading digit run as a one- or two-digit numeric field with the
given inclusive bounds.  Because in the wire format every numeric field is
followed by a non-digit, this matches the behaviour of the `strptime`
alternation patterns for `%m`, `%d`, `%H`, `%M`, `%S` combined with the range
checks of the `datetime` constructor. -/
def parseTwo (lo hi : Nat) (cs : List Char) : Option (Nat × List Char) :=
  let run := cs.takeWhile Char.isDigit
  if (run.length = 1 ∨ run.length = 2) ∧ lo ≤ digitsVal run ∧ digitsVal run ≤ hi then
    some (digitsVal run, cs.dropWhile Char.isDigit)
  else none

/-- Consume one expected literal character of the format string. -/
def expectChar (ch : Char) : List Char → Option (List Char)
  | c :: rest => if c = ch then some rest else none
  | [] => none

/-- Embedding of `datetime.strptime(s, "%Y-%m-%d %H:%M:%SZ")`:
`none` is the raised `ValueError`.  `strptime` requires the whole string to
match, and the `datetime` constructor additionally validates the day against
the month length. -/
def parseDate (s : String) : Option DateTime := do
  let (y, r1) ← parseYear4 s.toList
  let r2 ← expectChar '-' r1
  let (mo, r3) ← parseTwo 1 12 r2
  let r4 ← expectChar '-' r3
  let (d, r5) ← parseTwo 1 31 r4
  let r6 ← expectChar ' ' r5
  let (h, r7) ← parseTwo 0 23 r6
  let r8 ← expectChar ':' r7
  let (mi, r9) ← parseTwo 0 59 r8
  let r10 ← expectChar ':' r9
  let (sec, r11) ← parseTwo 0 59 r10
  let r12 ← expectChar 'Z' r11
  if r12 = [] ∧ d ≤ daysInMonth y mo then
    some ⟨y, mo, d, h, mi, sec⟩
  else none

/-- Order-preserving linearisation of a timestamp.  All comparisons of
parsed timestamps in the source are `datetime` comparisons, which are
lexicographic on the fields; with every field below its radix this
linearisation preserves that order, so `a ≤ b` in Python iff
`a.toSec ≤ b.toSec` here. -/
def DateTime.toSec (d : DateTime) : Nat :=
  ((((d.year * 13 + d.month) * 32 + d.day) * 24 + d.hour) * 60 + d.minute) * 60 + d.second

/-- One row of the player's inventory list, as assembled by
`get_player_profile` (src/main.py lines 67–69): a `name`/`quantity` record,
in store order, duplicates preserved. -/
structure InventoryEntry where
  name : String
  quantity : Int
deriving DecidableEq

/-- The slice of the profile dictionary that `profile_matches_campaign`
reads through `.get`.  A field is `none` when the key is absent (the
remaining descriptive fields of the dictionary — identity, currency totals,
timestamps, devices, clan — are carried through untouched and never read by
the matcher, so they are not modelled). -/
structure Profile where
  level : Option Int
  country : Option String
  inventory : Option (List InventoryEntry)
deriving DecidableEq

/-- One campaign dictionary as assembled by `get_current_campaigns`
(src/main.py lines 80–117).  `countries`, `itemsHas`, `itemsDoesNotHave`
model `matchers["has"]["country"]`, `matchers["has"]["items"]` and
`matchers["does_not_have"]["items"]`; an absent key read with `.get(_, [])`
is observationally the empty list, which is how it is modelled.  The unused
`game`, `priority` and `last_updated` fields are carried as data and never
read by the matcher, so they are not modelled. -/
structure Campaign where
  name : String
  levelMin : Int
  levelMax : Int
  countries : List String
  itemsHas : List String
  itemsDoesNotHave : List String
  startDate : String
  endDate : String
  enabled : Bool
deriving DecidableEq

/-- Inner helper of `profile_matches_campaign` (src/main.py lines 133–137):
linear scan returning the quantity of the first entry whose name matches,
`0` when no entry matches. -/
def get_item_quantity : List InventoryEntry → String → Int
  | [], _ => 0
  | e :: rest, item => if e.name = item then e.quantity else get_item_quantity rest item

/-- Membership test `profile.get("country") in matchers["has"]["country"]`:
a missing key gives Python `None`, which is never equal to any string in the
list. -/
def country_in_list (oc : Option String) (countries : List String) : Bool :=
  match oc with
  | some pc => decide (pc ∈ countries)
  | none => false

/-- Embedding of `profile_matches_campaign` (src/main.py lines 120–162) at
the instant `now` (the value of `datetime.now(timezone.utc)` read inside the
call).  `some b` is a normal return of `b`; `none` is the uncaught
`ValueError` raised by `strptime` when a bound of the window is malformed.
The clause order is exactly the source order: level, country, required
items, forbidden items, temporal window, enabled flag, with an early
`return False` on the first failing clause. -/
def profile_matches_campaign (p : Profile) (c : Campaign) (now : Nat) : Option Bool :=
  if ¬ (c.levelMin ≤ p.level.getD 0 ∧ p.level.getD 0 ≤ c.levelMax) then some false
  else if ¬ country_in_list p.country c.countries then some false
  else if ¬ (∀ item ∈ c.itemsHas, 1 ≤ get_item_quantity (p.inventory.getD []) item) then
    some false
  else if ¬ (∀ item ∈ c.itemsDoesNotHave, get_item_quantity (p.inventory.getD []) item ≤ 0) then
    some false
  else
    match parseDate c.startDate, parseDate c.endDate with
    | some s, some e =>
      if ¬ (s.toSec ≤ now ∧ now ≤ e.toSec) then some false
      else if ¬ c.enabled then some false
      else some true
    | _, _ => none

/-- The campaign loop of `get_client_config` (src/main.py lines 171–174).
Each campaign is paired with the instant at which `datetime.now` would be
read during its own evaluation (the source reads the clock inside
`profile_matches_campaign`, so once per campaign, not once per pass).
`none` is the uncaught `ValueError` aborting the whole request: once any
evaluated campaign raises, no response is produced at all. -/
def get_active_campaigns (p : Profile) : List (Campaign × Nat) → Option (List String)
  | [] => some []
  | x :: rest =>
    match profile_matches_campaign p x.1 x.2 with
    | none => none
    | some b =>
      match get_active_campaigns p rest with
      | none => none
      | some l => some (if b then x.1.name :: l else l)

/-- The same pass with a single instant `t` used for every campaign — the
pure per-instant evaluation the specification describes. -/
def eval_pass_at (p : Profile) (cs : List Campaign) (t : Nat) : Option (List String) :=
  get_active_campaigns p (cs.map (fun c => (c, t)))

/-- Raw stored player aggregate, restricted to the columns that
`get_player_profile` copies into the fields the matcher reads
(src/main.py lines 39–77): `players.level`, `players.country` and the
related `inventory_items` rows in store order. -/
structure RawPlayer where
  level : Int
  country : String
  inventory : List InventoryEntry
deriving DecidableEq

/-- Profile assembly of `get_player_profile` (src/main.py lines 44–77): the
matcher-visible keys are always present for a stored player, and the
inventory rows are copied one record per row, in order, duplicates
preserved. -/
def player_profile_of (r : RawPlayer) : Profile :=
  { level := some r.level
    country := some r.country
    inventory := some (r.inventory.map (fun e => { name := e.name, quantity := e.quantity })) }

/-- Embedding of `get_player_profile` (src/main.py lines 39–77): the store
lookup `db.get(Player, player_id)` is the function `db`; a missing row makes
the source return the empty dictionary, modelled as `none`. -/
def get_player_profile (db : String → Option RawPlayer) (pid : String) : Option Profile :=
  match db pid with
  | none => none
  | some r => some (player_profile_of r)

/-- Observable outcome of one `GET /get_client_config/{player_id}` request.
`notFound` is the `HTTPException(status_code=404)`; `parseError` is the
uncaught `ValueError` escaping the endpoint (no normal response); `ok`
carries the profile and the `active_campaigns` list of the response. -/
inductive ConfigResult where
  | notFound : ConfigResult
  | parseError : ConfigResult
  | ok : Profile → List String → ConfigResult
deriving DecidableEq

/-- Embedding of the endpoint `get_client_config` (src/main.py lines
165–179): resolve the profile (404 when the player record is absent), then
run the campaign loop, each campaign at its own clock reading. -/
def get_client_config (db : String → Option RawPlayer) (pid : String)
    (cps : List (Campaign × Nat)) : ConfigResult :=
  match get_player_profile db pid with
  | none => ConfigResult.notFound
  | some profile =>
    match get_active_campaigns profile cps with
    | none => ConfigResult.parseError
    | some l => ConfigResult.ok profile l

/-- The six clauses of the evaluator, named for reasoning about evaluation
order. -/
inductive Clause where
  | level : Clause
  | country : Clause
  | requiredItems : Clause
  | forbiddenItems : Clause
  | temporal : Clause
  | enabled : Clause
deriving DecidableEq

/-- Evaluate a single clause of `profile_matches_campaign` in isolation:
`some b` is the clause's verdict, `none` the `ValueError` of the temporal
clause on a malformed window. -/
def eval_clause (p : Profile) (c : Campaign) (now : Nat) : Clause → Option Bool
  | Clause.level => some (decide (c.levelMin ≤ p.level.getD 0 ∧ p.level.getD 0 ≤ c.levelMax))
  | Clause.country => some (country_in_list p.country c.countries)
  | Clause.requiredItems =>
    some (decide (∀ item ∈ c.itemsHas, 1 ≤ get_item_quantity (p.inventory.getD []) item))
  | Clause.forbiddenItems =>
    some (decide (∀ item ∈ c.itemsDoesNotHave, get_item_quantity (p.inventory.getD []) item ≤ 0))
  | Clause.temporal =>
    match parseDate c.startDate, parseDate c.endDate with
    | some s, some e => some (decide (s.toSec ≤ now ∧ now ≤ e.toSec))
    | _, _ => none
  | Clause.enabled => some c.enabled

/-- Short-circuit conjunction of a list of clauses: stop at the first
clause that fails or raises, exactly like the early returns of the source. -/
def eval_clauses (p : Profile) (c : Campaign) (now : Nat) : List Clause → Option Bool
  | [] => some true
  | cl :: rest =>
    match eval_clause p c now cl with
    | none => none
    | some false => some false
    | some true => eval_clauses p c now rest

/-- The clause order of the source: level, country, required items,
forbidden items, temporal window, enabled flag. -/
def clause_order : List Clause :=
  [Clause.level, Clause.country, Clause.requiredItems, Clause.forbiddenItems,
   Clause.temporal, Clause.enabled]

/-- Modelled from the spec: the inventory lookup the specification
describes, where among duplicate entries for one name the last-seen entry
wins.  Kept separate from `get_item_quantity` (the code's lookup) so the two
can be compared. -/
def last_seen_quantity (inv : List InventoryEntry) (item : String) : Int :=
  ((inv.reverse.find? (fun e => e.name == item)).map (fun e => e.quantity)).getD 0

/-- First-seen formulation of the code's lookup, for the amended claim. -/
def first_seen_quantity (inv : List InventoryEntry) (item : String) : Int :=
  ((inv.find? (fun e => e.name == item)).map (fun e => e.quantity)).getD 0

/-! ## Shared lemmas about the embedding -/

/-- The country membership test succeeds exactly when the profile carries a
country that is listed in the campaign's allow-list. -/
theorem country_in_list_iff (oc : Option String) (countries : List String) :
    country_in_list oc countries = true ↔ ∃ pc, oc = some pc ∧ pc ∈ countries := by
  cases oc <;> simp [country_in_list]

/-- The country membership test always fails on an empty allow-list. -/
theorem country_in_list_nil (oc : Option String) : country_in_list oc [] = false := by
  cases oc <;> simp [country_in_list]

/-- When both window bounds parse, the matcher returns `true` exactly when
the six clauses, stated the way the specification states them, all hold. -/
theorem pmc_eq_some_true_iff (p : Profile) (c : Campaign) (now : Nat) (s e : DateTime)
    (hs : parseDate c.startDate = some s) (he : parseDate c.endDate = some e) :
    profile_matches_campaign p c now = some true ↔
      ((c.levelMin ≤ p.level.getD 0 ∧ p.level.getD 0 ≤ c.levelMax) ∧
       (∃ pc, p.country = some pc ∧ pc ∈ c.countries) ∧
       (∀ item ∈ c.itemsHas, 1 ≤ get_item_quantity (p.inventory.getD []) item) ∧
       (∀ item ∈ c.itemsDoesNotHave, get_item_quantity (p.inventory.getD []) item ≤ 0) ∧
       (s.toSec ≤ now ∧ now ≤ e.toSec) ∧
       c.enabled = true) := by
  have hc := country_in_list_iff p.country c.countries
  rw [profile_matches_campaign, hs, he]
  split_ifs with h1 h2 h3 h4 h5 <;> simp_all

/-- When both window bounds parse, the matcher returns normally. -/
theorem pmc_isSome_of_parse (p : Profile) (c : Campaign) (now : Nat) (s e : DateTime)
    (hs : parseDate c.startDate = some s) (he : parseDate c.endDate = some e) :
    profile_matches_campaign p c now ≠ none := by
  rw [profile_matches_campaign, hs, he]
  split_ifs <;> simp
  split <;> simp

/-- A successful pass returns exactly the names of the matching campaigns,
in store order: the loop is a filter followed by a projection to names. -/
theorem get_active_campaigns_eq_some (p : Profile) :
    ∀ (cps : List (Campaign × Nat)) (l : List String),
      get_active_campaigns p cps = some l →
      l = (cps.filter
            (fun x => decide (profile_matches_campaign p x.1 x.2 = some true))).map
            (fun x => x.1.name)
  | [], l, h => by
    simp only [get_active_campaigns, Option.some.injEq] at h
    simp [← h]
  | x :: rest, l, h => by
    simp only [get_active_campaigns] at h
    rcases hm : profile_matches_campaign p x.1 x.2 with _ | b <;> rw [hm] at h
    · exact absurd h (by simp)
    · rcases hr : get_active_campaigns p rest with _ | lr <;> rw [hr] at h
      · exact absurd h (by simp)
      · have ih := get_active_campaigns_eq_some p rest lr hr
        simp only [Option.some.injEq] at h
        cases b <;> simp [← h, List.filter_cons, hm, ih]

/-- Membership in a successful pass, given pairwise-distinct campaign names:
a campaign's name is delivered exactly when the matcher accepted it at the
instant captured during its evaluation. -/
theorem mem_active_iff (p : Profile) (cps : List (Campaign × Nat)) (c : Campaign) (t : Nat)
    (l : List String) (hok : get_active_campaigns p cps = some l)
    (hnodup : (cps.map (fun x => x.1.name)).Nodup) (hmem : (c, t) ∈ cps) :
    c.name ∈ l ↔ profile_matches_campaign p c t = some true := by
  have hl := get_active_campaigns_eq_some p cps l hok
  subst hl
  constructor
  · intro hin
    rcases List.mem_map.mp hin with ⟨x, hxf, hxn⟩
    rcases List.mem_filter.mp hxf with ⟨hxmem, hxp⟩
    have hx : x = (c, t) := List.inj_on_of_nodup_map hnodup hxmem hmem hxn
    rw [hx] at hxp
    simpa using hxp
  · intro hm
    exact List.mem_map.mpr ⟨(c, t), List.mem_filter.mpr ⟨hmem, by simp [hm]⟩, rfl⟩

/-- Evaluating the clause list in the source's order is exactly the source's
matcher. -/
theorem eval_clauses_order_eq (p : Profile) (c : Campaign) (now : Nat) :
    eval_clauses p c now clause_order = profile_matches_campaign p c now := by
  simp only [clause_order, eval_clauses, eval_clause, profile_matches_campaign]
  by_cases h1 : c.levelMin ≤ p.level.getD 0 ∧ p.level.getD 0 ≤ c.levelMax
  case neg => simp [h1]
  simp only [decide_eq_true h1, if_neg (not_not_intro h1)]
  by_cases h2 : country_in_list p.country c.countries = true
  case neg =>
    rw [Bool.not_eq_true] at h2
    simp [h2]
  simp only [h2, if_neg (not_not_intro (by simp [h2] : country_in_list p.country c.countries))]
  by_cases h3 : ∀ item ∈ c.itemsHas, 1 ≤ get_item_quantity (p.inventory.getD []) item
  case neg => simp [h3]
  simp only [decide_eq_true h3, if_neg (not_not_intro h3)]
  by_cases h4 : ∀ item ∈ c.itemsDoesNotHave, get_item_quantity (p.inventory.getD []) item ≤ 0
  case neg => simp [h4]
  simp only [decide_eq_true h4, if_neg (not_not_intro h4)]
  cases hps : parseDate c.startDate with
  | none => simp
  | some s =>
    cases hpe : parseDate c.endDate with
    | none => simp
    | some e =>
      by_cases h5 : s.toSec ≤ now ∧ now ≤ e.toSec
      case neg => simp [h5]
      simp only [decide_eq_true h5, if_neg (not_not_intro h5)]
      cases hen : c.enabled <;> simp [hen]

/-- Lookup of an item name that occurs in no inventory entry yields 0 and
never an error. -/
theorem get_item_quantity_of_absent :
    ∀ (inv : List InventoryEntry) (item : String),
      (∀ entry ∈ inv, entry.name ≠ item) → get_item_quantity inv item = 0
  | [], _, _ => rfl
  | e :: rest, item, h => by
    rw [get_item_quantity, if_neg (h e (by simp))]
    exact get_item_quantity_of_absent rest item (fun x hx => h x (by simp [hx]))

/-- A violated required-items clause forces the matcher to return `false`
(either at the required-items check itself or at an earlier clause). -/
theorem pmc_false_of_items_has (p : Profile) (c : Campaign) (now : Nat)
    (h : ¬ ∀ item ∈ c.itemsHas, 1 ≤ get_item_quantity (p.inventory.getD []) item) :
    profile_matches_campaign p c now = some false := by
  rw [profile_matches_campaign]
  split_ifs <;> simp_all

/-- A violated forbidden-items clause forces the matcher to return `false`
(either at the forbidden-items check itself or at an earlier clause). -/
theorem pmc_false_of_items_does_not_have (p : Profile) (c : Campaign) (now : Nat)
    (h : ¬ ∀ item ∈ c.itemsDoesNotHave, get_item_quantity (p.inventory.getD []) item ≤ 0) :
    profile_matches_campaign p c now = some false := by
  rw [profile_matches_campaign]
  split_ifs <;> simp_all

/-- Short-circuit conjunction of a clause list that raises nowhere equals the
plain boolean conjunction of the individual verdicts. -/
theorem eval_clauses_eq_all (p : Profile) (c : Campaign) (now : Nat)
    (h : ∀ cl : Clause, eval_clause p c now cl ≠ none) :
    ∀ l : List Clause,
      eval_clauses p c now l =
        some (l.all (fun cl => (eval_clause p c now cl).getD false))
  | [] => by simp [eval_clauses]
  | cl :: rest => by
    rcases he : eval_clause p c now cl with _ | b
    · exact absurd he (h cl)
    · cases b
      · simp [eval_clauses, he]
      · simp [eval_clauses, he, eval_clauses_eq_all p c now h rest]

/-- When both window bounds parse, no clause raises. -/
theorem eval_clause_isSome_of_parse (p : Profile) (c : Campaign) (now : Nat) (s e : DateTime)
    (hs : parseDate c.startDate = some s) (he : parseDate c.endDate = some e) :
    ∀ cl : Clause, eval_clause p c now cl ≠ none := by
  intro cl
  cases cl <;> simp [eval_clause, hs, he]

/-- Conjunction over a list of booleans is invariant under permutation. -/
theorem perm_all_eq {α : Type} (f : α → Bool) {l₁ l₂ : List α} (h : l₁.Perm l₂) :
    l₁.all f = l₂.all f := by
  induction h with
  | nil => rfl
  | cons a _ ih => simp [List.all_cons, ih]
  | swap a b l => simp [List.all_cons, Bool.and_left_comm]
  | trans _ _ ih1 ih2 => rw [ih1, ih2]

/-! ## Concrete data

`mock_player` and `mycampaign` are the records seeded by `create_mock_data`
(src/main.py lines 182–322), restricted to the matcher-visible columns; the
remaining values are small concrete instances used in counterexamples and
witnesses. -/

/-- Inventory rows seeded for the mock player. -/
def mock_inventory : List InventoryEntry :=
  [⟨"cash", 123⟩, ⟨"coins", 123⟩, ⟨"item_1", 1⟩, ⟨"item_34", 3⟩, ⟨"item_55", 2⟩]

/-- Matcher-visible columns of the mock player seeded by `create_mock_data`. -/
def mock_player : RawPlayer :=
  { level := 3, country := "CA", inventory := mock_inventory }

/-- Player store holding exactly the mock player. -/
def mock_db : String → Option RawPlayer :=
  fun pid => if pid = "97983be2-98b7-11e7-90cf-082e5f28d836" then some mock_player else none

/-- The mock campaign seeded by `create_mock_data`. -/
def mycampaign : Campaign :=
  { name := "mycampaign", levelMin := 1, levelMax := 3,
    countries := ["US", "RO", "CA"], itemsHas := ["item_1"], itemsDoesNotHave := ["item_4"],
    startDate := "2025-04-25 00:00:00Z", endDate := "2025-06-25 00:00:00Z", enabled := true }

/-- The instant `2025-05-20T00:00:00Z`, inside the mock campaign's window. -/
def mock_now : Nat := (DateTime.mk 2025 5 20 0 0 0).toSec

/-- A profile that passes every non-temporal clause of the demo campaigns. -/
def demo_profile : Profile :=
  { level := some 5, country := some "CA", inventory := some [] }

/-- Campaign whose window is the single instant `2025-01-01T00:00:00Z`. -/
def window_a : Campaign :=
  { name := "window_a", levelMin := 0, levelMax := 100, countries := ["CA"],
    itemsHas := [], itemsDoesNotHave := [],
    startDate := "2025-01-01 00:00:00Z", endDate := "2025-01-01 00:00:00Z", enabled := true }

/-- Campaign whose window is the single instant `2025-01-02T00:00:00Z`. -/
def window_b : Campaign :=
  { window_a with name := "window_b", startDate := "2025-01-02 00:00:00Z", endDate := "2025-01-02 00:00:00Z" }

/-- The instant `2025-01-01T00:00:00Z`. -/
def instant_a : Nat := (DateTime.mk 2025 1 1 0 0 0).toSec

/-- The instant `2025-01-02T00:00:00Z`. -/
def instant_b : Nat := (DateTime.mk 2025 1 2 0 0 0).toSec

/-- Campaign with an unparsable start bound and otherwise passable clauses. -/
def malformed_campaign : Campaign :=
  { window_a with name := "malformed", startDate := "2025-99-99 00:00:00Z" }

/-- Campaign with an unparsable start bound and a level clause that
`demo_profile` fails. -/
def unreachable_campaign : Campaign :=
  { window_a with name := "unreachable", levelMin := 10, levelMax := 20, startDate := "not a date" }

/-- Campaign requiring the item `item_1`, otherwise like `window_a`. -/
def requires_item_campaign : Campaign :=
  { window_a with name := "requires_item", itemsHas := ["item_1"] }

/-- Campaign with an empty country allow-list, otherwise like `window_a`. -/
def no_country_campaign : Campaign :=
  { window_a with name := "no_country", countries := [] }

/-- When both window bounds parse but the instant lies outside the window,
the matcher returns `false` (at the temporal clause, or already at an
earlier clause). -/
theorem pmc_false_of_window (p : Profile) (c : Campaign) (now : Nat) (s e : DateTime)
    (hs : parseDate c.startDate = some s) (he : parseDate c.endDate = some e)
    (h : ¬ (s.toSec ≤ now ∧ now ≤ e.toSec)) :
    profile_matches_campaign p c now = some false := by
  rw [profile_matches_campaign, hs, he]
  split_ifs <;> simp_all

/-! ## Claims -/

/-- C1, as written, is false on the code: in a batch holding a campaign with
an unparsable `start_date` (whose earlier clauses pass) and a valid campaign
that matches on its own, the whole pass aborts with the parse error and
returns no result set at all, instead of excluding only the malformed
campaign. -/
theorem C1_counterexample :
    profile_matches_campaign demo_profile window_a instant_a = some true ∧
    get_active_campaigns demo_profile [(malformed_campaign, instant_a), (window_a, instant_a)] =
      none := by
  exact ⟨by decide, by decide⟩

/-- C1 (amended): a parse failure of a campaign window is not contained to
that campaign — once any campaign of the pass raises it (its earlier clauses
passing), the uncaught error aborts the entire evaluation pass and no match
set is produced. -/
theorem C1_parse_error_aborts_pass (p : Profile) (cps : List (Campaign × Nat))
    (c : Campaign) (t : Nat) (hmem : (c, t) ∈ cps)
    (hraise : profile_matches_campaign p c t = none) :
    get_active_campaigns p cps = none := by
  induction cps with
  | nil => cases hmem
  | cons x rest ih =>
    rcases List.mem_cons.mp hmem with h | h
    · rw [← h, get_active_campaigns, hraise]
    · rcases hm : profile_matches_campaign p x.1 x.2 with _ | b <;>
        simp [get_active_campaigns, hm, ih h]

/-- Witness for C1 (amended) at a concrete input. -/
theorem C1_witness :
    get_active_campaigns demo_profile [(malformed_campaign, instant_a)] = none :=
  C1_parse_error_aborts_pass demo_profile [(malformed_campaign, instant_a)]
    malformed_campaign instant_a (by simp) (by decide)

/-- C2: for a campaign whose window bounds parse, its name is in the
delivered result set exactly when all six clauses hold: level within the
inclusive bounds, country in the allow-list, every required item with
quantity at least 1, every forbidden item with quantity at most 0, the
instant inside the window, and the enabled flag set. -/
theorem C2_six_clause_result_set (p : Profile) (cps : List (Campaign × Nat))
    (c : Campaign) (now : Nat) (l : List String) (s e : DateTime)
    (hs : parseDate c.startDate = some s) (he : parseDate c.endDate = some e)
    (hmem : (c, now) ∈ cps) (hnodup : (cps.map (fun x => x.1.name)).Nodup)
    (hok : get_active_campaigns p cps = some l) :
    c.name ∈ l ↔
      ((c.levelMin ≤ p.level.getD 0 ∧ p.level.getD 0 ≤ c.levelMax) ∧
       (∃ pc, p.country = some pc ∧ pc ∈ c.countries) ∧
       (∀ item ∈ c.itemsHas, 1 ≤ get_item_quantity (p.inventory.getD []) item) ∧
       (∀ item ∈ c.itemsDoesNotHave, get_item_quantity (p.inventory.getD []) item ≤ 0) ∧
       (s.toSec ≤ now ∧ now ≤ e.toSec) ∧
       c.enabled = true) :=
  (mem_active_iff p cps c now l hok hnodup hmem).trans
    (pmc_eq_some_true_iff p c now s e hs he)

/-- Witness for C2 on the seeded mock data at `2025-05-20T00:00:00Z`. -/
theorem C2_witness :
    get_active_campaigns (player_profile_of mock_player) [(mycampaign, mock_now)] =
      some ["mycampaign"] ∧
    mycampaign.name ∈ (["mycampaign"] : List String) := by
  refine ⟨by decide, ?_⟩
  exact (C2_six_clause_result_set (player_profile_of mock_player) [(mycampaign, mock_now)]
      mycampaign mock_now ["mycampaign"] ⟨2025, 4, 25, 0, 0, 0⟩ ⟨2025, 6, 25, 0, 0, 0⟩
      rfl rfl (by simp) (by simp) (by decide)).mpr
    ⟨by decide, ⟨"CA", rfl, by decide⟩, by decide, by decide, by decide, rfl⟩

/-- C3, as written, is false on the code: with duplicate inventory rows for
one name, the lookup used during matching returns the first-seen quantity,
not the last-seen one, and the matching verdict shows it: a campaign
requiring `item_1` rejects the profile whose rows are
`[(item_1, 0), (item_1, 5)]` although the last-seen quantity is 5. -/
theorem C3_counterexample :
    get_item_quantity
        ((player_profile_of ⟨5, "CA", [⟨"item_1", 0⟩, ⟨"item_1", 5⟩]⟩).inventory.getD [])
        "item_1" = 0 ∧
    last_seen_quantity
        ((player_profile_of ⟨5, "CA", [⟨"item_1", 0⟩, ⟨"item_1", 5⟩]⟩).inventory.getD [])
        "item_1" = 5 ∧
    profile_matches_campaign (player_profile_of ⟨5, "CA", [⟨"item_1", 0⟩, ⟨"item_1", 5⟩]⟩)
        requires_item_campaign instant_a = some false := by
  exact ⟨by decide, by decide, by decide⟩

/-- C3 (amended): the normalizer hands the inventory rows to the matcher
unchanged (order and duplicates preserved), and for duplicate item names the
quantity used by every inventory lookup during matching is that of the
first-seen entry for that name; quantities are not merged or summed. -/
theorem C3_first_seen_wins :
    (∀ r : RawPlayer, (player_profile_of r).inventory = some r.inventory) ∧
    (∀ (inv : List InventoryEntry) (item : String),
      get_item_quantity inv item = first_seen_quantity inv item) := by
  constructor
  · intro r
    rw [player_profile_of]
    simp
  · intro inv item
    induction inv with
    | nil => rfl
    | cons entry rest ih =>
      by_cases h : entry.name = item
      · simp [get_item_quantity, first_seen_quantity, List.find?_cons, h]
      · rw [get_item_quantity, if_neg h, ih, first_seen_quantity, first_seen_quantity]
        rw [List.find?_cons_of_neg]
        simp [h]

/-- C4, as written, is false on the code: the clock is read inside each
campaign evaluation rather than once per pass.  With the two point-window
campaigns `window_a` and `window_b` evaluated at their own (monotone) clock
readings, the pass delivers both names, yet no single instant `t` makes the
pure single-instant evaluation produce that result, because the two windows
are disjoint. -/
theorem C4_counterexample :
    get_active_campaigns demo_profile [(window_a, instant_a), (window_b, instant_b)] =
      some ["window_a", "window_b"] ∧
    ¬ ∃ t : Nat, eval_pass_at demo_profile [window_a, window_b] t =
        some ["window_a", "window_b"] := by
  refine ⟨by decide, ?_⟩
  rintro ⟨t, ht⟩
  rw [eval_pass_at] at ht
  by_cases ha : instant_a ≤ t ∧ t ≤ instant_a
  · by_cases hb : instant_b ≤ t ∧ t ≤ instant_b
    · have hab : instant_a < instant_b := by decide
      omega
    · have hbf : profile_matches_campaign demo_profile window_b t = some false :=
        pmc_false_of_window demo_profile window_b t ⟨2025, 1, 2, 0, 0, 0⟩
          ⟨2025, 1, 2, 0, 0, 0⟩ rfl rfl hb
      have haf : profile_matches_campaign demo_profile window_a t = some true :=
        (pmc_eq_some_true_iff demo_profile window_a t ⟨2025, 1, 1, 0, 0, 0⟩
          ⟨2025, 1, 1, 0, 0, 0⟩ rfl rfl).mpr
          ⟨by decide, ⟨"CA", rfl, by decide⟩, by decide, by decide, ha, rfl⟩
      simp [get_active_campaigns, haf, hbf] at ht
  · have haf : profile_matches_campaign demo_profile window_a t = some false :=
      pmc_false_of_window demo_profile window_a t ⟨2025, 1, 1, 0, 0, 0⟩
        ⟨2025, 1, 1, 0, 0, 0⟩ rfl rfl ha
    rcases hbm : profile_matches_campaign demo_profile window_b t with _ | b
    · simp [get_active_campaigns, haf, hbm] at ht
    · cases b <;> simp [get_active_campaigns, haf, hbm] at ht

/-- C4 (amended): the clock is read once per campaign, not once per pass;
a successful pass equals evaluating each campaign's pure predicate at the
instant captured during that campaign's own evaluation. -/
theorem C4_per_campaign_instant (p : Profile) (cps : List (Campaign × Nat))
    (l : List String) (hok : get_active_campaigns p cps = some l) :
    l = (cps.filter
          (fun x => decide (profile_matches_campaign p x.1 x.2 = some true))).map
          (fun x => x.1.name) :=
  get_active_campaigns_eq_some p cps l hok

/-- Witness for C4 (amended) at a concrete input. -/
theorem C4_witness :
    (["window_a"] : List String) =
      ([(window_a, instant_a)].filter
        (fun x => decide (profile_matches_campaign demo_profile x.1 x.2 = some true))).map
        (fun x => x.1.name) :=
  C4_per_campaign_instant demo_profile [(window_a, instant_a)] ["window_a"] (by decide)

/-- C5, as written, is false on the code: clause order is observable.  On a
campaign with a malformed window and a failing level clause, the source
order returns `false` quietly, while an order that evaluates the temporal
clause first raises the parse error — a different observable outcome, even
though the reordered list is a permutation of the six clauses. -/
theorem C5_counterexample :
    eval_clauses demo_profile unreachable_campaign instant_a clause_order = some false ∧
    eval_clauses demo_profile unreachable_campaign instant_a
      [Clause.temporal, Clause.level, Clause.country, Clause.requiredItems,
       Clause.forbiddenItems, Clause.enabled] = none ∧
    [Clause.temporal, Clause.level, Clause.country, Clause.requiredItems,
       Clause.forbiddenItems, Clause.enabled].Perm clause_order := by
  refine ⟨by decide, by decide, by decide⟩

/-- C5 (amended): for campaigns whose two window bounds parse, evaluating
the six clauses in any order produces the same outcome as the code's
matcher; order affects only efficiency. -/
theorem C5_order_independent (p : Profile) (c : Campaign) (now : Nat) (s e : DateTime)
    (hs : parseDate c.startDate = some s) (he : parseDate c.endDate = some e)
    (l : List Clause) (hperm : l.Perm clause_order) :
    eval_clauses p c now l = profile_matches_campaign p c now := by
  have hne : ∀ cl : Clause, eval_clause p c now cl ≠ none :=
    eval_clause_isSome_of_parse p c now s e hs he
  rw [← eval_clauses_order_eq, eval_clauses_eq_all p c now hne l,
    eval_clauses_eq_all p c now hne clause_order]
  exact congrArg some (perm_all_eq _ hperm)

/-- Witness for C5 (amended): the fully reversed clause order agrees with
the matcher on the mock data. -/
theorem C5_witness :
    eval_clauses (player_profile_of mock_player) mycampaign mock_now
      [Clause.enabled, Clause.temporal, Clause.forbiddenItems, Clause.requiredItems,
       Clause.country, Clause.level] =
      profile_matches_campaign (player_profile_of mock_player) mycampaign mock_now :=
  C5_order_independent (player_profile_of mock_player) mycampaign mock_now
    ⟨2025, 4, 25, 0, 0, 0⟩ ⟨2025, 6, 25, 0, 0, 0⟩ rfl rfl _ (by decide)

/-- C6: a campaign with an empty country allow-list is rejected for every
profile and every instant, regardless of all other clauses — the matcher
always returns `false` for it. -/
theorem C6_empty_allow_list_never_matches (p : Profile) (c : Campaign) (now : Nat)
    (h : c.countries = []) : profile_matches_campaign p c now = some false := by
  rw [profile_matches_campaign, h, country_in_list_nil]
  simp

/-- Witness for C6 at a concrete input. -/
theorem C6_witness :
    profile_matches_campaign demo_profile no_country_campaign instant_a = some false :=
  C6_empty_allow_list_never_matches demo_profile no_country_campaign instant_a rfl

/-- C7: the level clause is inclusive at both bounds — a match implies
`levelMin ≤ level ≤ levelMax`, a violated level clause forces rejection, and
a profile without a level field behaves exactly like one with level 0. -/
theorem C7_level_clause (p : Profile) (c : Campaign) (now : Nat) :
    (profile_matches_campaign p c now = some true →
      c.levelMin ≤ p.level.getD 0 ∧ p.level.getD 0 ≤ c.levelMax) ∧
    (¬ (c.levelMin ≤ p.level.getD 0 ∧ p.level.getD 0 ≤ c.levelMax) →
      profile_matches_campaign p c now = some false) ∧
    (p.level = none →
      profile_matches_campaign p c now =
        profile_matches_campaign { p with level := some 0 } c now) := by
  refine ⟨?_, ?_, ?_⟩
  · intro hmt
    by_cases h : c.levelMin ≤ p.level.getD 0 ∧ p.level.getD 0 ≤ c.levelMax
    · exact h
    · rw [profile_matches_campaign, if_pos h] at hmt
      simp at hmt
  · intro h
    rw [profile_matches_campaign, if_pos h]
  · intro h
    rw [profile_matches_campaign, profile_matches_campaign]
    simp [h]

/-- Witness for C7: the mock campaign's range `(1, 3)` rejects a level-4
profile. -/
theorem C7_witness :
    profile_matches_campaign { demo_profile with level := some 4 } mycampaign mock_now =
      some false :=
  (C7_level_clause { demo_profile with level := some 4 } mycampaign mock_now).2.1 (by decide)

/-- C8: item lookups are total — an item name absent from the inventory
yields quantity 0, never an error; a match implies every required item has
quantity at least 1 and every forbidden item quantity at most 0; and a
violated required-items or forbidden-items clause forces rejection. -/
theorem C8_item_clauses (p : Profile) (c : Campaign) (now : Nat) :
    (∀ item : String, (∀ entry ∈ p.inventory.getD [], entry.name ≠ item) →
      get_item_quantity (p.inventory.getD []) item = 0) ∧
    (profile_matches_campaign p c now = some true →
      (∀ item ∈ c.itemsHas, 1 ≤ get_item_quantity (p.inventory.getD []) item) ∧
      (∀ item ∈ c.itemsDoesNotHave, get_item_quantity (p.inventory.getD []) item ≤ 0)) ∧
    ((¬ ∀ item ∈ c.itemsHas, 1 ≤ get_item_quantity (p.inventory.getD []) item) →
      profile_matches_campaign p c now = some false) ∧
    ((¬ ∀ item ∈ c.itemsDoesNotHave, get_item_quantity (p.inventory.getD []) item ≤ 0) →
      profile_matches_campaign p c now = some false) := by
  refine ⟨fun item h => get_item_quantity_of_absent (p.inventory.getD []) item h, ?_, ?_, ?_⟩
  · intro hmt
    constructor
    · by_contra hreq
      rw [pmc_false_of_items_has p c now hreq] at hmt
      simp at hmt
    · by_contra hforb
      rw [pmc_false_of_items_does_not_have p c now hforb] at hmt
      simp at hmt
  · exact pmc_false_of_items_has p c now
  · exact pmc_false_of_items_does_not_have p c now

/-- Witness for C8: an absent item has quantity 0, and the campaign
requiring `item_1` rejects a profile with an empty inventory. -/
theorem C8_witness :
    get_item_quantity [] "item_1" = 0 ∧
    profile_matches_campaign demo_profile requires_item_campaign instant_a = some false := by
  constructor
  · exact (C8_item_clauses demo_profile requires_item_campaign instant_a).1 "item_1" (by decide)
  · exact (C8_item_clauses demo_profile requires_item_campaign instant_a).2.2.1 (by decide)

/-- C9: the endpoint answers `404 Not Found` exactly for identifiers with no
backing player record, and for such identifiers it never produces a normal
response (in particular not one with zero matched campaigns). -/
theorem C9_not_found_distinct (db : String → Option RawPlayer) (pid : String)
    (cps : List (Campaign × Nat)) :
    (get_client_config db pid cps = ConfigResult.notFound ↔ db pid = none) ∧
    (db pid = none → ∀ (pr : Profile) (l : List String),
      get_client_config db pid cps ≠ ConfigResult.ok pr l) := by
  constructor
  · cases hdb : db pid with
    | none => simp [get_client_config, get_player_profile, hdb]
    | some r =>
      cases hga : get_active_campaigns (player_profile_of r) cps with
      | none => simp [get_client_config, get_player_profile, hdb, hga]
      | some l => simp [get_client_config, get_player_profile, hdb, hga]
  · intro h pr l
    simp [get_client_config, get_player_profile, h]

/-- Witness for C9: an unknown identifier never yields a normal response. -/
theorem C9_witness :
    get_client_config mock_db "unknown" [] ≠
      ConfigResult.ok (player_profile_of mock_player) [] :=
  (C9_not_found_distinct mock_db "unknown" []).2 (by decide)
    (player_profile_of mock_player) []

/-- C10: a delivered `active_campaigns` list is the name projection of the
filtered campaign list in store order (not sorted); under pairwise-distinct
campaign names it lists each matching campaign's name exactly once, is a
sublist of the input names, and contains no non-matching campaign's name. -/
theorem C10_active_campaigns_shape (db : String → Option RawPlayer) (pid : String)
    (cps : List (Campaign × Nat)) (pr : Profile) (l : List String)
    (hok : get_client_config db pid cps = ConfigResult.ok pr l)
    (hnodup : (cps.map (fun x => x.1.name)).Nodup) :
    l = (cps.filter
          (fun x => decide (profile_matches_campaign pr x.1 x.2 = some true))).map
          (fun x => x.1.name) ∧
    l.Sublist (cps.map (fun x => x.1.name)) ∧
    (∀ x ∈ cps, profile_matches_campaign pr x.1 x.2 = some true → l.count x.1.name = 1) ∧
    (∀ x ∈ cps, profile_matches_campaign pr x.1 x.2 ≠ some true → x.1.name ∉ l) := by
  have hga : get_active_campaigns pr cps = some l := by
    rcases hdb : db pid with _ | r
    · rw [get_client_config, get_player_profile, hdb] at hok
      simp at hok
    · rw [get_client_config, get_player_profile, hdb] at hok
      simp only [] at hok
      rcases hg : get_active_campaigns (player_profile_of r) cps with _ | l2 <;>
        rw [hg] at hok <;> simp at hok
      rcases hok with ⟨hpr, hl⟩
      rw [← hpr, hg, hl]
  have hshape := get_active_campaigns_eq_some pr cps l hga
  have hsub : l.Sublist (cps.map (fun x => x.1.name)) := by
    rw [hshape]
    exact List.Sublist.map _ (List.filter_sublist _)
  have hnodupl : l.Nodup := hnodup.sublist hsub
  refine ⟨hshape, hsub, ?_, ?_⟩
  · intro x hx hmatch
    have hmem : x.1.name ∈ l := by
      rw [hshape]
      exact List.mem_map.mpr ⟨x, List.mem_filter.mpr ⟨hx, by simp [hmatch]⟩, rfl⟩
    exact List.count_eq_one_of_mem hnodupl hmem
  · intro x hx hne hinl
    rw [hshape] at hinl
    rcases List.mem_map.mp hinl with ⟨y, hyf, hyn⟩
    rcases List.mem_filter.mp hyf with ⟨hymem, hyp⟩
    have hyx : y = x := List.inj_on_of_nodup_map hnodup hymem hx hyn
    rw [hyx] at hyp
    simp at hyp
    exact hne hyp

/-- Witness for C10 on the seeded mock data: the single matching campaign's
name appears exactly once. -/
theorem C10_witness :
    (["mycampaign"] : List String).count "mycampaign" = 1 :=
  (C10_active_campaigns_shape mock_db "97983be2-98b7-11e7-90cf-082e5f28d836"
      [(mycampaign, mock_now)] (player_profile_of mock_player) ["mycampaign"]
      (by decide) (by decide)).2.2.1 (mycampaign, mock_now) (by simp) (by decide)
